import Mathlib

/-!
Shallow embedding of the smaug (karbor) SQLAlchemy DB API layer
(`smaug/db/sqlalchemy/api.py`) and proofs about its authorization gates,
soft-delete visibility rules, deadlock retry wrapper and the Plan/Resource,
Service and generic-lookup repositories.

Python `None`/empty-string truthiness is modelled with `Option String` and
an explicit `truthy` test; exceptions are modelled with `Except DbError`;
the database is a record of lists of rows; the transaction structure of an
operation is recorded as a list of transactions, each a list of writes.
-/

set_option autoImplicit false

namespace Smaug

/-- Python truthiness of an optional string value (`None` and `""` are falsy). -/
def truthy : Option String → Bool
  | none => false
  | some s => !s.isEmpty

/-- The request context threaded through every DB API call
(`context.is_admin`, `context.user_id`, `context.project_id`,
`context.read_deleted`). -/
structure Context where
  is_admin : Bool
  user_id : Option String
  project_id : Option String
  read_deleted : String
deriving Repr, DecidableEq

/-- The errors raised by the layer.  `fatal` models a plain Python
`Exception` (an untyped, programming-contract failure); `typeError` models a
`TypeError` such as calling `None`; the rest model the typed exception
classes of `smaug.exception`. -/
inductive DbError where
  | fatal (msg : String)
  | typeError (msg : String)
  | notAuthorized
  | adminRequired
  | serviceNotFound (service_id : String)
  | planNotFound (plan_id : String)
  | triggerNotFound (id : String)
  | scheduledOperationNotFound (id : String)
  | scheduledOperationStateNotFound (op_id : String)
  | scheduledOperationLogNotFound (log_id : String)
deriving Repr, DecidableEq

/-- `is_admin_context(context)`: raises a bare `Exception('die')` on an
absent context, otherwise reads `context.is_admin`. -/
def is_admin_context : Option Context → Except DbError Bool
  | none => .error (.fatal "die")
  | some c => .ok c.is_admin

/-- `is_user_context(context)`: an absent context is not a user context;
an admin context is not a user context; otherwise both `user_id` and
`project_id` must be truthy. -/
def is_user_context : Option Context → Bool
  | none => false
  | some c =>
    if c.is_admin then false
    else if !truthy c.user_id || !truthy c.project_id then false
    else true

/-- `authorize_project_context(context, project_id)`: only checks anything
when the context is a user context. -/
def authorize_project_context (ctx : Option Context) (project_id : String) :
    Except DbError Unit :=
  if is_user_context ctx then
    match ctx with
    | none => .ok ()
    | some c =>
      if !truthy c.project_id then .error .notAuthorized
      else if c.project_id ≠ some project_id then .error .notAuthorized
      else .ok ()
  else .ok ()

/-- `authorize_user_context(context, user_id)`: only checks anything when
the context is a user context. -/
def authorize_user_context (ctx : Option Context) (user_id : String) :
    Except DbError Unit :=
  if is_user_context ctx then
    match ctx with
    | none => .ok ()
    | some c =>
      if !truthy c.user_id then .error .notAuthorized
      else if c.user_id ≠ some user_id then .error .notAuthorized
      else .ok ()
  else .ok ()

/-- The check performed by the `require_context` decorator:
`is_admin_context` is evaluated first (and may raise the fatal error),
then `is_user_context`; `NotAuthorized` if neither holds. -/
def require_context_check (ctx : Option Context) : Except DbError Unit :=
  match is_admin_context ctx with
  | .error e => .error e
  | .ok a => if !a && !(is_user_context ctx) then .error .notAuthorized else .ok ()

/-- The check performed by the `require_admin_context` decorator:
`AdminRequired` unless `is_admin_context` returns true (the fatal error of
`is_admin_context` propagates first). -/
def require_admin_context_check (ctx : Option Context) : Except DbError Unit :=
  match is_admin_context ctx with
  | .error e => .error e
  | .ok a => if !a then .error .adminRequired else .ok ()

/-- The filter a `model_query` call attaches to a query:
`deletedFilter = some b` filters to rows with `deleted = b`, `none` applies
no deletion filter; `projectFilter = some p` filters to rows with
`project_id = p`. -/
structure QueryFilter where
  deletedFilter : Option Bool
  projectFilter : Option String
deriving Repr, DecidableEq

/-- Python `a or b` for an optional keyword-argument string falling back to
the context field. -/
def pyOr (a : Option String) (b : String) : String :=
  match a with
  | some s => if s.isEmpty then b else s
  | none => b

/-- The `project_only` scoping of `model_query`: only user-type contexts
are restricted to their own `project_id`. -/
def projectScope (ctx : Context) (project_only : Bool) : Option String :=
  if project_only && is_user_context (some ctx) then ctx.project_id else none

/-- Whether a row with the given `deleted` flag passes a deletion filter. -/
def matchesDeleted : Option Bool → Bool → Bool
  | none, _ => true
  | some b, d => d == b

/-- `model_query(context, *args, **kwargs)`: resolves `read_deleted` from
the keyword argument or the context, builds the deletion filter
(raising a fatal unrecognized-value error otherwise), then applies
project scoping. -/
def model_query (ctx : Context) (read_deleted_kw : Option String)
    (project_only : Bool) : Except DbError QueryFilter :=
  let rd := pyOr read_deleted_kw ctx.read_deleted
  let df : Except DbError (Option Bool) :=
    if rd == "no" then .ok (some false)
    else if rd == "yes" then .ok none
    else if rd == "only" then .ok (some true)
    else .error (.fatal ("Unrecognized read_deleted value " ++ rd))
  match df with
  | .error e => .error e
  | .ok f => .ok ⟨f, projectScope ctx project_only⟩

/-- Spec-side restatement of the visibility contract of `model_query`, from
the spec text: "no" filters to non-deleted rows, "yes" applies no deletion
filter, "only" filters to soft-deleted rows, any other value fails fatally
with an unrecognized-value error; user contexts may additionally be
project-scoped. -/
def model_query_spec (ctx : Context) (read_deleted_kw : Option String)
    (project_only : Bool) : Except DbError QueryFilter :=
  let rd := pyOr read_deleted_kw ctx.read_deleted
  if rd == "no" then
    .ok { deletedFilter := some false, projectFilter := projectScope ctx project_only }
  else if rd == "yes" then
    .ok { deletedFilter := none, projectFilter := projectScope ctx project_only }
  else if rd == "only" then
    .ok { deletedFilter := some true, projectFilter := projectScope ctx project_only }
  else
    .error (.fatal ("Unrecognized read_deleted value " ++ rd))

/-- A `plans` table row. -/
structure PlanRow where
  id : String
  project_id : String
  name : String
  status : String
  deleted : Bool
  deleted_at : Option Nat
deriving Repr, DecidableEq

/-- A `resources` table row (owned by a Plan via `plan_id`). -/
structure ResourceRow where
  plan_id : String
  resource_id : String
  resource_type : String
  deleted : Bool
  deleted_at : Option Nat
deriving Repr, DecidableEq

/-- A `services` table row. -/
structure ServiceRow where
  id : String
  host : String
  binary : String
  topic : String
  disabled : Bool
  deleted : Bool
deriving Repr, DecidableEq

/-- A `triggers` table row. -/
structure TriggerRow where
  id : String
  name : String
  deleted : Bool
deriving Repr, DecidableEq

/-- A `scheduled_operations` table row. -/
structure ScheduledOperationRow where
  id : String
  trigger_id : String
  deleted : Bool
deriving Repr, DecidableEq

/-- A `scheduled_operation_states` table row. -/
structure ScheduledOperationStateRow where
  operation_id : String
  state : String
  deleted : Bool
deriving Repr, DecidableEq

/-- A `scheduled_operation_logs` table row. -/
structure ScheduledOperationLogRow where
  id : String
  operation_id : String
  state : String
  deleted : Bool
deriving Repr, DecidableEq

/-- The database state: one list of rows per table. -/
structure DB where
  plans : List PlanRow
  resources : List ResourceRow
  services : List ServiceRow
  triggers : List TriggerRow
  scheduled_operations : List ScheduledOperationRow
  scheduled_operation_states : List ScheduledOperationStateRow
  scheduled_operation_logs : List ScheduledOperationLogRow
deriving Repr, DecidableEq

/-- Whether a Plan row passes a query filter. -/
def planMatches (q : QueryFilter) (p : PlanRow) : Bool :=
  matchesDeleted q.deletedFilter p.deleted &&
    match q.projectFilter with
    | none => true
    | some pr => p.project_id == pr

/-- Whether a Resource row passes a query filter (Resource queries are
never project-scoped). -/
def resourceMatches (q : QueryFilter) (r : ResourceRow) : Bool :=
  matchesDeleted q.deletedFilter r.deleted

/-- The Plan fields of a `values` mapping other than `resources`
(only supplied keys are applied on update). -/
structure PlanFields where
  name : Option String
  status : Option String
deriving Repr, DecidableEq, BEq

/-- `plan_ref.update(values)` on the non-resource fields: only supplied
keys overwrite the row. -/
def apply_plan_fields (f : PlanFields) (p : PlanRow) : PlanRow :=
  { p with name := f.name.getD p.name, status := f.status.getD p.status }

/-- Soft-deleting a row at time `now` (`deleted=True`,
`deleted_at=timeutils.utcnow()`). -/
def mark_resource_deleted (now : Nat) (r : ResourceRow) : ResourceRow :=
  { r with deleted := true, deleted_at := some now }

/-- Soft-deleting a Plan row at time `now`. -/
def mark_plan_deleted (now : Nat) (p : PlanRow) : PlanRow :=
  { p with deleted := true, deleted_at := some now }

/-- A primitive DML statement issued by one of the Plan operations. -/
inductive Write where
  | softDeletePlans (q : QueryFilter) (id : String) (now : Nat)
  | softDeleteResources (q : QueryFilter) (plan_id : String) (now : Nat)
  | insertResource (r : ResourceRow)
  | insertPlan (p : PlanRow) (rs : List ResourceRow)
  | updatePlanFields (plan_id : String) (f : PlanFields)
deriving Repr, DecidableEq, BEq

/-- The effect of one primitive statement on the database. -/
def applyWrite (db : DB) : Write → DB
  | .softDeletePlans q pid now =>
    { db with plans := db.plans.map (fun p =>
        if planMatches q p && p.id == pid then mark_plan_deleted now p else p) }
  | .softDeleteResources q pid now =>
    { db with resources := db.resources.map (fun r =>
        if resourceMatches q r && r.plan_id == pid
        then mark_resource_deleted now r else r) }
  | .insertResource r => { db with resources := db.resources ++ [r] }
  | .insertPlan p rs =>
    { db with plans := db.plans ++ [p], resources := db.resources ++ rs }
  | .updatePlanFields pid f =>
    { db with plans := db.plans.map (fun p =>
        if p.id == pid then apply_plan_fields f p else p) }

/-- The result of executing a Plan operation: its return value, the
database after all transactions committed, and the list of transactions
(in commit order), each a list of primitive statements. -/
structure Exec (α : Type) where
  out : Except DbError α
  db : DB
  txns : List (List Write)
deriving Repr

/-- The result of a Plan operation returning a Plan row. -/
abbrev PlanExec := Exec PlanRow

/-- `_plan_get(context, plan_id)`: decorated with `require_context`;
queries Plans with `project_only=True`, filters by id, takes the first
row, raises `PlanNotFound` when nothing is visible. -/
def _plan_get (ctx : Option Context) (plan_id : String) (db : DB) :
    Except DbError PlanRow :=
  match require_context_check ctx with
  | .error e => .error e
  | .ok _ =>
    match ctx with
    | none => .error (.fatal "die")
    | some c =>
      match model_query c none true with
      | .error e => .error e
      | .ok q =>
        match (db.plans.filter (fun p => planMatches q p && p.id == plan_id)).head? with
        | some p => .ok p
        | none => .error (.planNotFound plan_id)

/-- `plan_get(context, plan_id)`: `require_context` then `_plan_get`. -/
def plan_get (ctx : Option Context) (plan_id : String) (db : DB) :
    Except DbError PlanRow :=
  match require_context_check ctx with
  | .error e => .error e
  | .ok _ => _plan_get ctx plan_id db

/-- One element of the `resources` list supplied by a caller
(a dict with keys `id` and `type`). -/
structure ResourceSpec where
  id : String
  type : String
deriving Repr, DecidableEq

/-- The `values` mapping of a `plan_update` call. -/
structure PlanUpdateValues where
  name : Option String
  status : Option String
  resources : Option (List ResourceSpec)
deriving Repr, DecidableEq

/-- The fresh Resource rows built by `_plan_resources_update`: each entry
of the supplied list becomes a row with `plan_id`, `resource_id`,
`resource_type` and is inserted as a live row. -/
def new_resource_rows (plan_id : String) (rs : List ResourceSpec) :
    List ResourceRow :=
  rs.map (fun r => ⟨plan_id, r.id, r.type, false, none⟩)

/-- The loop of `_plan_resources_update`: each `_resource_create` call
opens its own session and commits an insert immediately. -/
def insert_resources (db : DB) (rows : List ResourceRow) : DB :=
  rows.foldl (fun d r => applyWrite d (.insertResource r)) db

/-- `plan_update(context, plan_id, values)`: decorated with
`require_context` and `require_plan_exists` (which runs `plan_get`).  When
`values` holds a `resources` list, `_plan_resources_update` soft-deletes
the Plan's Resource rows inside the caller's session and then inserts each
new row through `_resource_create`, which opens its own session (its own
transaction) per row; the remaining fields are applied to the re-fetched
Plan row inside the caller's session. -/
def plan_update (ctx : Option Context) (plan_id : String)
    (values : PlanUpdateValues) (now : Nat) (db : DB) : PlanExec :=
  match require_context_check ctx with
  | .error e => ⟨.error e, db, []⟩
  | .ok _ =>
    match _plan_get ctx plan_id db with
    | .error e => ⟨.error e, db, []⟩
    | .ok _ =>
      match ctx with
      | none => ⟨.error (.fatal "die"), db, []⟩
      | some c =>
        match values.resources with
        | some rs =>
          match model_query c none false with
          | .error e => ⟨.error e, db, []⟩
          | .ok q =>
            let wDel : Write := .softDeleteResources q plan_id now
            let db1 := applyWrite db wDel
            let newRows := new_resource_rows plan_id rs
            let db2 := insert_resources db1 newRows
            let insTxns := newRows.map (fun r => [Write.insertResource r])
            match _plan_get ctx plan_id db2 with
            | .error e =>
              -- the caller's transaction rolls back, the per-row insert
              -- transactions have already committed
              ⟨.error e, insert_resources db newRows, insTxns⟩
            | .ok p =>
              let f : PlanFields := ⟨values.name, values.status⟩
              let wUpd : Write := .updatePlanFields plan_id f
              ⟨.ok (apply_plan_fields f p), applyWrite db2 wUpd,
                insTxns ++ [[wDel, wUpd]]⟩
        | none =>
          match _plan_get ctx plan_id db with
          | .error e => ⟨.error e, db, []⟩
          | .ok p =>
            let f : PlanFields := ⟨values.name, values.status⟩
            let wUpd : Write := .updatePlanFields plan_id f
            ⟨.ok (apply_plan_fields f p), applyWrite db wUpd, [[wUpd]]⟩

/-- The `values` mapping of a `plan_create` call. -/
structure PlanCreateValues where
  id : Option String
  project_id : String
  name : String
  status : String
  resources : Option (List ResourceSpec)
deriving Repr, DecidableEq

/-- `_resource_refs(resource_list, meta_class)`: converts each supplied
resource dict to a `(resource_id, resource_type)` pair; an absent list
yields no rows. -/
def _resource_refs (resource_list : Option (List ResourceSpec)) :
    List (String × String) :=
  match resource_list with
  | none => []
  | some l => l.map (fun r => (r.id, r.type))

/-- The id `plan_create` stores: the supplied one when truthy, otherwise
the freshly generated `uuid4` string. -/
def plan_create_new_id (v : PlanCreateValues) (newId : String) : String :=
  if truthy v.id then v.id.getD "" else newId

/-- The Plan row inserted by `plan_create`. -/
def created_plan_row (v : PlanCreateValues) (newId : String) : PlanRow :=
  ⟨plan_create_new_id v newId, v.project_id, v.name, v.status, false, none⟩

/-- The Resource rows inserted by `plan_create` (owned by the new Plan). -/
def created_resource_rows (v : PlanCreateValues) (newId : String) :
    List ResourceRow :=
  (_resource_refs v.resources).map
    (fun pr => ⟨plan_create_new_id v newId, pr.1, pr.2, false, none⟩)

/-- `plan_create(context, values)`: decorated with `require_context`;
converts the resource list first, generates an id when none is supplied,
inserts the Plan row with its owned Resource rows in one transaction, then
re-reads the Plan through `_plan_get`. -/
def plan_create (ctx : Option Context) (v : PlanCreateValues)
    (newId : String) (db : DB) : PlanExec :=
  match require_context_check ctx with
  | .error e => ⟨.error e, db, []⟩
  | .ok _ =>
    let pr := created_plan_row v newId
    let rr := created_resource_rows v newId
    let w : Write := .insertPlan pr rr
    let db1 := applyWrite db w
    ⟨_plan_get ctx (plan_create_new_id v newId) db1, db1, [[w]]⟩

/-- `plan_destroy(context, plan_id)`: decorated with
`require_admin_context` and `_retry_on_deadlock`; two soft-delete updates
(Plans by id, Resources by plan_id) inside one transaction, with no
existence check and no `PlanNotFound`. -/
def plan_destroy (ctx : Option Context) (plan_id : String) (now : Nat)
    (db : DB) : Exec Unit :=
  match require_admin_context_check ctx with
  | .error e => ⟨.error e, db, []⟩
  | .ok _ =>
    match ctx with
    | none => ⟨.error (.fatal "die"), db, []⟩
    | some c =>
      match model_query c none false with
      | .error e => ⟨.error e, db, []⟩
      | .ok q =>
        let w1 : Write := .softDeletePlans q plan_id now
        let w2 : Write := .softDeleteResources q plan_id now
        ⟨.ok (), applyWrite (applyWrite db w1) w2, [[w1, w2]]⟩

/-- An observable event of a Service operation: a query issued against the
database or a row written. -/
inductive Event where
  | query (desc : String)
  | write (desc : String)
deriving Repr, DecidableEq

/-- The result of a Service operation: its return value, the database
afterwards, and the queries/writes issued. -/
structure SvcResult (α : Type) where
  out : Except DbError α
  db : DB
  events : List Event
deriving Repr

/-- `_service_get(context, service_id)`: decorated with
`require_admin_context`; queries Services by id, raises `ServiceNotFound`
when nothing is visible.  Returns the issued events alongside. -/
def _service_get (ctx : Option Context) (service_id : String) (db : DB) :
    Except DbError ServiceRow × List Event :=
  match require_admin_context_check ctx with
  | .error e => (.error e, [])
  | .ok _ =>
    match ctx with
    | none => (.error (.fatal "die"), [])
    | some c =>
      match model_query c none false with
      | .error e => (.error e, [])
      | .ok q =>
        let ev := Event.query "select services by id"
        match (db.services.filter (fun s =>
            matchesDeleted q.deletedFilter s.deleted && s.id == service_id)).head? with
        | some s => (.ok s, [ev])
        | none => (.error (.serviceNotFound service_id), [ev])

/-- `service_get(context, service_id)`: `require_admin_context` then
`_service_get`. -/
def service_get (ctx : Option Context) (service_id : String) (db : DB) :
    Except DbError ServiceRow :=
  match require_admin_context_check ctx with
  | .error e => .error e
  | .ok _ => (_service_get ctx service_id db).1

/-- `service_destroy(context, service_id)`: decorated with
`require_admin_context`; fetches the Service row inside a transaction and
deletes it.  Modelled from the spec: Service delete removes the row
(`models.py` is not part of the sources; the spec states Service delete is
a hard delete). -/
def service_destroy (ctx : Option Context) (service_id : String) (db : DB) :
    SvcResult Unit :=
  match require_admin_context_check ctx with
  | .error e => ⟨.error e, db, []⟩
  | .ok _ =>
    match _service_get ctx service_id db with
    | (.error e, evs) => ⟨.error e, db, evs⟩
    | (.ok s, evs) =>
      ⟨.ok (), { db with services := db.services.filter (fun t => t.id ≠ s.id) },
        evs ++ [Event.write "delete service row"]⟩

/-- The `values` mapping of a `service_create` call. -/
structure ServiceCreateValues where
  host : String
  binary : String
  topic : String
  disabled : Bool
deriving Repr, DecidableEq

/-- `service_create(context, values)`: decorated with
`require_admin_context`; applies the caller's values and then forces
`disabled=True` when `CONF.enable_new_services` is false; saves the row in
one transaction.  The surrogate id is the backend's autoincrement value. -/
def service_create (enable_new_services : Bool) (ctx : Option Context)
    (values : ServiceCreateValues) (db : DB) : SvcResult ServiceRow :=
  match require_admin_context_check ctx with
  | .error e => ⟨.error e, db, []⟩
  | .ok _ =>
    let disabled := if !enable_new_services then true else values.disabled
    let row : ServiceRow :=
      ⟨toString db.services.length, values.host, values.binary, values.topic,
        disabled, false⟩
    ⟨.ok row, { db with services := db.services ++ [row] },
      [Event.write "insert service row"]⟩

/-- `_trigger_get(context, id)`: no authorization decorator; an absent
context fails fatally inside `model_query` when `context.read_deleted` is
read. -/
def _trigger_get (ctx : Option Context) (id : String) (db : DB) :
    Except DbError TriggerRow :=
  match ctx with
  | none => .error (.fatal "AttributeError")
  | some c =>
    match model_query c none false with
    | .error e => .error e
    | .ok q =>
      match (db.triggers.filter (fun t =>
          matchesDeleted q.deletedFilter t.deleted && t.id == id)).head? with
      | some t => .ok t
      | none => .error (.triggerNotFound id)

/-- `trigger_get(context, id)`. -/
def trigger_get (ctx : Option Context) (id : String) (db : DB) :
    Except DbError TriggerRow :=
  _trigger_get ctx id db

/-- `scheduled_operation_get(context, id)` (column joining aside). -/
def scheduled_operation_get (ctx : Option Context) (id : String) (db : DB) :
    Except DbError ScheduledOperationRow :=
  match ctx with
  | none => .error (.fatal "AttributeError")
  | some c =>
    match model_query c none false with
    | .error e => .error e
    | .ok q =>
      match (db.scheduled_operations.filter (fun o =>
          matchesDeleted q.deletedFilter o.deleted && o.id == id)).head? with
      | some o => .ok o
      | none => .error (.scheduledOperationNotFound id)

/-- `scheduled_operation_state_get(context, operation_id)`. -/
def scheduled_operation_state_get (ctx : Option Context)
    (operation_id : String) (db : DB) :
    Except DbError ScheduledOperationStateRow :=
  match ctx with
  | none => .error (.fatal "AttributeError")
  | some c =>
    match model_query c none false with
    | .error e => .error e
    | .ok q =>
      match (db.scheduled_operation_states.filter (fun s =>
          matchesDeleted q.deletedFilter s.deleted &&
            s.operation_id == operation_id)).head? with
      | some s => .ok s
      | none => .error (.scheduledOperationStateNotFound operation_id)

/-- `scheduled_operation_log_get(context, log_id)`. -/
def scheduled_operation_log_get (ctx : Option Context) (log_id : String)
    (db : DB) : Except DbError ScheduledOperationLogRow :=
  match ctx with
  | none => .error (.fatal "AttributeError")
  | some c =>
    match model_query c none false with
    | .error e => .error e
    | .ok q =>
      match (db.scheduled_operation_logs.filter (fun l =>
          matchesDeleted q.deletedFilter l.deleted && l.id == log_id)).head? with
      | some l => .ok l
      | none => .error (.scheduledOperationLogNotFound log_id)

/-- The entity kinds (`model` classes) accepted by `get_by_id`. -/
inductive ModelKind where
  | Service
  | Trigger
  | ScheduledOperation
  | ScheduledOperationState
  | ScheduledOperationLog
  | Plan
  | Resource
deriving Repr, DecidableEq, BEq

/-- `model.__name__`. -/
def modelName : ModelKind → String
  | .Service => "Service"
  | .Trigger => "Trigger"
  | .ScheduledOperation => "ScheduledOperation"
  | .ScheduledOperationState => "ScheduledOperationState"
  | .ScheduledOperationLog => "ScheduledOperationLog"
  | .Plan => "Plan"
  | .Resource => "Resource"

/-- The longest lowercase prefix of a character list and the remainder
(the greedy `[a-z]+` of the first regex). -/
def takeLowerRun : List Char → List Char × List Char
  | [] => ([], [])
  | c :: cs =>
    if c.isLower then
      let r := takeLowerRun cs
      (c :: r.1, r.2)
    else ([], c :: cs)

/-- `re.sub('(.)([A-Z][a-z]+)', '\1_\2', s)`: leftmost non-overlapping
matches of any character followed by an uppercase letter and at least one
lowercase letter; scanning resumes after each match.  `fuel` bounds the
scan (one unit per consumed character suffices). -/
def sub1Aux : Nat → List Char → List Char
  | 0, cs => cs
  | _ + 1, [] => []
  | _ + 1, [c] => [c]
  | fuel + 1, c1 :: c2 :: cs =>
    if c2.isUpper then
      match takeLowerRun cs with
      | ([], _) => c1 :: sub1Aux fuel (c2 :: cs)
      | (run, rest) => c1 :: '_' :: c2 :: (run ++ sub1Aux fuel rest)
    else c1 :: sub1Aux fuel (c2 :: cs)

/-- `re.sub('([a-z0-9])([A-Z])', '\1_\2', s)`. -/
def sub2 : List Char → List Char
  | [] => []
  | [c] => [c]
  | c1 :: c2 :: cs =>
    if (c1.isLower || c1.isDigit) && c2.isUpper then
      c1 :: '_' :: c2 :: sub2 cs
    else
      c1 :: sub2 (c2 :: cs)

/-- The name derivation of `_get_get_method`: camel case to snake case in
two substitution passes, lowercased, with `_get` appended. -/
def get_method_name (model_name : String) : String :=
  String.mk ((sub2 (sub1Aux model_name.data.length model_name.data)).map
    Char.toLower) ++ "_get"

/-- A reference to one of the module-level `*_get` functions
(the values `globals().get(...)` can return for a derived name). -/
inductive GetMethod where
  | service_get
  | trigger_get
  | scheduled_operation_get
  | scheduled_operation_state_get
  | scheduled_operation_log_get
  | plan_get
deriving Repr, DecidableEq, BEq

/-- `globals().get(name)` restricted to the `*_get` functions the module
defines (there is no `resource_get`). -/
def globalsGetMethod (n : String) : Option GetMethod :=
  if n == "service_get" then some .service_get
  else if n == "trigger_get" then some .trigger_get
  else if n == "scheduled_operation_get" then some .scheduled_operation_get
  else if n == "scheduled_operation_state_get" then
    some .scheduled_operation_state_get
  else if n == "scheduled_operation_log_get" then
    some .scheduled_operation_log_get
  else if n == "plan_get" then some .plan_get
  else none

/-- `_get_get_method(model)`: derive the snake-cased `*_get` name from the
model's name and look it up among the module's globals. -/
def _get_get_method (m : ModelKind) : Option GetMethod :=
  globalsGetMethod (get_method_name (modelName m))

/-- An entity returned by `get_by_id`. -/
inductive Entity where
  | service (s : ServiceRow)
  | trigger (t : TriggerRow)
  | scheduled_operation (o : ScheduledOperationRow)
  | scheduled_operation_state (s : ScheduledOperationStateRow)
  | scheduled_operation_log (l : ScheduledOperationLogRow)
  | plan (p : PlanRow)
deriving Repr, DecidableEq

/-- Calling the resolved `*_get` function. -/
def dispatch_get (g : GetMethod) (ctx : Option Context) (id : String)
    (db : DB) : Except DbError Entity :=
  match g with
  | .service_get => (service_get ctx id db).map .service
  | .trigger_get => (trigger_get ctx id db).map .trigger
  | .scheduled_operation_get =>
    (scheduled_operation_get ctx id db).map .scheduled_operation
  | .scheduled_operation_state_get =>
    (scheduled_operation_state_get ctx id db).map .scheduled_operation_state
  | .scheduled_operation_log_get =>
    (scheduled_operation_log_get ctx id db).map .scheduled_operation_log
  | .plan_get => (plan_get ctx id db).map .plan

/-- The `_GET_METHODS` cache: entries are added per model kind; a cached
`none` is a cached failed lookup. -/
abbrev Cache := List (ModelKind × Option GetMethod)

/-- `_GET_METHODS.get(model)`. -/
def cacheLookup (cache : Cache) (m : ModelKind) : Option (Option GetMethod) :=
  match cache.find? (fun e => e.1 == m) with
  | some e => some e.2
  | none => none

/-- `get_by_id(context, model, id)`: decorated with `require_context`;
derives and caches the `*_get` method when `_GET_METHODS.get(model)` is
falsy (absent or `None`), then calls it — calling a cached `None` raises
`TypeError`. -/
def get_by_id (ctx : Option Context) (m : ModelKind) (id : String)
    (cache : Cache) (db : DB) : Cache × Except DbError Entity :=
  match require_context_check ctx with
  | .error e => (cache, .error e)
  | .ok _ =>
    let cached : Option GetMethod :=
      match cacheLookup cache m with
      | some (some g) => some g
      | _ => none
    match cached with
    | some g => (cache, dispatch_get g ctx id db)
    | none =>
      let g? := _get_get_method m
      let cache1 := (m, g?) :: cache
      match g? with
      | some g => (cache1, dispatch_get g ctx id db)
      | none => (cache1, .error (.typeError "NoneType object is not callable"))

/-- The outcome of one attempt of the unit of work wrapped by
`_retry_on_deadlock`: a value, a `DBDeadlock`, or any other exception. -/
inductive Attempt (α : Type) where
  | ok (a : α)
  | deadlock
  | err (e : DbError)
deriving Repr

/-- The `LOG.warning` message emitted before each retry, carrying the
wrapped function's `__name__`. -/
def retryMsg (fname : String) : String :=
  "Deadlock detected when running " ++ fname ++ ": Retrying..."

/-- `_retry_on_deadlock(f)`: re-executes the unit of work while it raises
`DBDeadlock`, logging before each retry; any other outcome (value or
exception) is returned/propagated at once.  `attempts i` is the outcome of
the i-th execution; the loop is unbounded in the source, so the model
takes fuel and returns `none` when the fuel is exhausted. -/
def _retry_on_deadlock {α : Type} (fname : String)
    (attempts : Nat → Attempt α) :
    Nat → Nat → Option (List String × Except DbError α)
  | 0, _ => none
  | fuel + 1, i =>
    match attempts i with
    | .ok a => some ([], .ok a)
    | .err e => some ([], .error e)
    | .deadlock =>
      match _retry_on_deadlock fname attempts fuel (i + 1) with
      | none => none
      | some (logs, r) => some (retryMsg fname :: logs, r)

/-- The value/propagated-exception of an attempt that is not a deadlock
(`none` for a deadlock, which the wrapper handles itself). -/
def attemptOutcome {α : Type} : Attempt α → Option (Except DbError α)
  | .ok a => some (.ok a)
  | .err e => some (.error e)
  | .deadlock => none

/-!  Theorems.  -/

/-- A map that fixes every member of a list is the identity on it. -/
theorem map_id_of_mem {α : Type} (l : List α) (f : α → α)
    (h : ∀ a ∈ l, f a = a) : l.map f = l := by
  rw [List.map_congr_left h]
  exact List.map_id l

/-- The head of a filtered list satisfies the filter. -/
theorem filter_head?_sat {α : Type} (p : α → Bool) (l : List α) (a : α)
    (h : (l.filter p).head? = some a) : p a = true := by
  have ha : a ∈ l.filter p := List.mem_of_mem_head? (by simp [h])
  exact (List.mem_filter.mp ha).2

/-- A user context is not an admin context. -/
theorem is_user_context_not_admin (c : Context)
    (h : is_user_context (some c) = true) : c.is_admin = false := by
  by_cases ha : c.is_admin
  · simp [is_user_context, ha] at h
  · simpa using ha

/-- A context passing `require_context` is an admin context or a user
context. -/
theorem require_context_ok_cases (c : Context)
    (h : require_context_check (some c) = .ok ()) :
    c.is_admin = true ∨ is_user_context (some c) = true := by
  by_cases ha : c.is_admin
  · exact .inl ha
  · by_cases hu : is_user_context (some c)
    · exact .inr hu
    · simp [require_context_check, is_admin_context, ha, hu] at h

/-- `model_query` with no keyword override on a context whose
`read_deleted` is `"no"` filters to live rows. -/
theorem model_query_default_no (c : Context) (hRd : c.read_deleted = "no")
    (po : Bool) : model_query c none po = .ok ⟨some false, projectScope c po⟩ := by
  simp [model_query, pyOr, hRd]

/-- `insert_resources` appends the rows, one insert at a time. -/
theorem insert_resources_spec (rows : List ResourceRow) (db : DB) :
    insert_resources db rows = { db with resources := db.resources ++ rows } := by
  induction rows generalizing db with
  | nil => simp [insert_resources]
  | cons r rs ih =>
    simp only [insert_resources, List.foldl_cons] at *
    rw [ih]
    simp [applyWrite]

/-- `_plan_get` reads only the Plans table. -/
theorem _plan_get_plans_only (ctx : Option Context) (pid : String)
    (db db' : DB) (h : db.plans = db'.plans) :
    _plan_get ctx pid db = _plan_get ctx pid db' := by
  unfold _plan_get
  rw [h]

/-- Claim C2: `model_query` filters to `deleted=false` rows when the
effective `read_deleted` is `"no"`, applies no deletion filter for
`"yes"`, filters to `deleted=true` rows for `"only"`, and fails fatally
with an unrecognized-value error for any other value, before any filter is
produced. -/
theorem model_query_read_deleted_semantics :
    (∀ (ctx : Context) (kw : Option String) (po : Bool),
      model_query ctx kw po = model_query_spec ctx kw po) ∧
    (∀ d : Bool, matchesDeleted (some false) d = !d) ∧
    (∀ d : Bool, matchesDeleted none d = true) ∧
    (∀ d : Bool, matchesDeleted (some true) d = d) := by
  refine ⟨fun ctx kw po => ?_, fun d => by cases d <;> rfl, fun _ => rfl,
    fun d => by cases d <;> rfl⟩
  unfold model_query model_query_spec
  by_cases h1 : pyOr kw ctx.read_deleted == "no" <;>
    by_cases h2 : pyOr kw ctx.read_deleted == "yes" <;>
      by_cases h3 : pyOr kw ctx.read_deleted == "only" <;>
        simp [h1, h2, h3]

/-- Claim C5 (amended): gated repository operations invoked with an absent
context fail with the fatal untyped error before touching the database,
while the ownership checks `authorize_project_context` and
`authorize_user_context` treat an absent context as a non-user context and
return without raising anything. -/
theorem null_context_behavior :
    (∀ (service_id : String) (db : DB),
      service_destroy none service_id db = ⟨.error (.fatal "die"), db, []⟩) ∧
    (∀ (plan_id : String) (v : PlanUpdateValues) (now : Nat) (db : DB),
      plan_update none plan_id v now db = ⟨.error (.fatal "die"), db, []⟩) ∧
    is_admin_context none = .error (.fatal "die") ∧
    (∀ project_id : String,
      authorize_project_context none project_id = .ok ()) ∧
    (∀ user_id : String, authorize_user_context none user_id = .ok ()) :=
  ⟨fun _ _ => rfl, fun _ _ _ _ => rfl, rfl, fun _ => rfl, fun _ => rfl⟩

/-- Claim C5 counterexample: an ownership check invoked with an absent
context silently succeeds instead of failing fatally. -/
theorem null_context_ownership_check_counterexample :
    authorize_project_context none "project-1" = .ok () ∧
    authorize_user_context none "user-1" = .ok () := ⟨rfl, rfl⟩

/-- Claim C6: every admin-only operation called with a non-admin context
fails with `AdminRequired` with the database unchanged and no query
issued. -/
theorem admin_gate_blocks_non_admin (u p : Option String) (rd : String)
    (service_id plan_id : String) (v : ServiceCreateValues)
    (enable_new_services : Bool) (now : Nat) (db : DB) :
    service_destroy (some ⟨false, u, p, rd⟩) service_id db =
      ⟨.error .adminRequired, db, []⟩ ∧
    service_create enable_new_services (some ⟨false, u, p, rd⟩) v db =
      ⟨.error .adminRequired, db, []⟩ ∧
    plan_destroy (some ⟨false, u, p, rd⟩) plan_id now db =
      ⟨.error .adminRequired, db, []⟩ :=
  ⟨rfl, rfl, rfl⟩

/-- Claim C9: `service_create` forces `disabled=True` when
`enable_new_services` is off, whatever the caller supplied, and keeps the
caller's value when it is on. -/
theorem service_create_disabled_policy (u p : Option String) (rd : String)
    (v : ServiceCreateValues) (db : DB) :
    (service_create false (some ⟨true, u, p, rd⟩) v db).out =
      .ok ⟨toString db.services.length, v.host, v.binary, v.topic, true, false⟩ ∧
    (service_create true (some ⟨true, u, p, rd⟩) v db).out =
      .ok ⟨toString db.services.length, v.host, v.binary, v.topic, v.disabled,
        false⟩ :=
  ⟨rfl, rfl⟩

/-- Unrolling `_retry_on_deadlock`: after `k` deadlocks starting at attempt
`i`, the first non-deadlock outcome is returned with one logged retry per
deadlock. -/
theorem retry_aux {α : Type} (fname : String) (attempts : Nat → Attempt α) :
    ∀ (k i fuel : Nat), (∀ j, j < k → attempts (i + j) = .deadlock) →
      k < fuel → ∀ r : Except DbError α,
      attemptOutcome (attempts (i + k)) = some r →
      _retry_on_deadlock fname attempts fuel i =
        some (List.replicate k (retryMsg fname), r) := by
  intro k
  induction k with
  | zero =>
    intro i fuel _ hf r hr
    obtain ⟨m, rfl⟩ : ∃ m, fuel = m + 1 := ⟨fuel - 1, by omega⟩
    rw [Nat.add_zero] at hr
    unfold _retry_on_deadlock
    cases hatt : attempts i with
    | ok a =>
      rw [hatt] at hr
      simp only [attemptOutcome, Option.some.injEq] at hr
      simp [hr]
    | deadlock =>
      rw [hatt] at hr
      simp [attemptOutcome] at hr
    | err e =>
      rw [hatt] at hr
      simp only [attemptOutcome, Option.some.injEq] at hr
      simp [hr]
  | succ k ih =>
    intro i fuel h hf r hr
    obtain ⟨m, rfl⟩ : ∃ m, fuel = m + 1 := ⟨fuel - 1, by omega⟩
    have h0 : attempts i = .deadlock := by simpa using h 0 (Nat.succ_pos k)
    have hrec := ih (i + 1) m
      (fun j hj => by
        have hh := h (j + 1) (by omega)
        rwa [show i + (j + 1) = i + 1 + j from by omega] at hh)
      (by omega) r
      (by rwa [show i + 1 + k = i + (k + 1) from by omega])
    unfold _retry_on_deadlock
    rw [h0, hrec]
    simp [List.replicate_succ]

/-- Claim C4: the deadlock-retry wrapper re-executes the unit of work on a
deadlock, logging one message naming the wrapped function before each
retry, and any non-deadlock failure of an attempt propagates at once,
uncaught, with no further attempt. -/
theorem retry_on_deadlock_contract {α : Type} (fname : String)
    (attempts : Nat → Attempt α) (k fuel : Nat)
    (hd : ∀ j, j < k → attempts j = .deadlock) (hfuel : k < fuel) :
    (∀ e : DbError, attempts k = .err e →
      _retry_on_deadlock fname attempts fuel 0 =
        some (List.replicate k (retryMsg fname), .error e)) ∧
    (∀ a : α, attempts k = .ok a →
      _retry_on_deadlock fname attempts fuel 0 =
        some (List.replicate k (retryMsg fname), .ok a)) := by
  constructor
  · intro e he
    exact retry_aux fname attempts k 0 fuel
      (fun j hj => by rw [Nat.zero_add]; exact hd j hj) hfuel (.error e)
      (by rw [Nat.zero_add, he]; rfl)
  · intro a ha
    exact retry_aux fname attempts k 0 fuel
      (fun j hj => by rw [Nat.zero_add]; exact hd j hj) hfuel (.ok a)
      (by rw [Nat.zero_add, ha]; rfl)

/-- Witness for C4: two deadlocks then a non-deadlock failure give two
logged retries and the propagated failure. -/
theorem retry_on_deadlock_contract_witness :
    _retry_on_deadlock "plan_destroy"
      ((fun i => if i < 2 then Attempt.deadlock
        else Attempt.err DbError.notAuthorized) : Nat → Attempt Unit) 5 0 =
      some (List.replicate 2 (retryMsg "plan_destroy"),
        Except.error DbError.notAuthorized) :=
  (retry_on_deadlock_contract "plan_destroy"
      ((fun i => if i < 2 then Attempt.deadlock
        else Attempt.err DbError.notAuthorized) : Nat → Attempt Unit)
      2 5 (fun j hj => by simp [hj]) (by omega)).1
    DbError.notAuthorized rfl

/-- Claim C8: the `get_by_id` dispatch derives each kind's `*_get` name by
the camel-to-snake naming convention, caches the derived method, reuses
the cache on later calls, and an unknown kind (Resource has no
`resource_get`) fails with the `TypeError` of calling `None` — not with
the entity's own NotFound error. -/
theorem get_by_id_dispatch_semantics :
    get_method_name "Service" = "service_get" ∧
    get_method_name "Trigger" = "trigger_get" ∧
    get_method_name "ScheduledOperation" = "scheduled_operation_get" ∧
    get_method_name "ScheduledOperationState" = "scheduled_operation_state_get" ∧
    get_method_name "ScheduledOperationLog" = "scheduled_operation_log_get" ∧
    get_method_name "Plan" = "plan_get" ∧
    get_method_name "Resource" = "resource_get" ∧
    _get_get_method ModelKind.Resource = none ∧
    get_by_id (some ⟨true, none, none, "no"⟩) ModelKind.Resource "r1" []
        ⟨[⟨"p1", "A", "n", "st", false, none⟩], [], [], [], [], [], []⟩ =
      ([(ModelKind.Resource, none)],
        .error (.typeError "NoneType object is not callable")) ∧
    get_by_id (some ⟨true, none, none, "no"⟩) ModelKind.Plan "p1" []
        ⟨[⟨"p1", "A", "n", "st", false, none⟩], [], [], [], [], [], []⟩ =
      ([(ModelKind.Plan, some GetMethod.plan_get)],
        .ok (.plan ⟨"p1", "A", "n", "st", false, none⟩)) ∧
    get_by_id (some ⟨true, none, none, "no"⟩) ModelKind.Plan "p1"
        [(ModelKind.Plan, some GetMethod.plan_get)]
        ⟨[⟨"p1", "A", "n", "st", false, none⟩], [], [], [], [], [], []⟩ =
      ([(ModelKind.Plan, some GetMethod.plan_get)],
        .ok (.plan ⟨"p1", "A", "n", "st", false, none⟩)) :=
  ⟨rfl, rfl, rfl, rfl, rfl, rfl, rfl, rfl, rfl, rfl, rfl⟩

/-- Claim C10 (amended): for an admin context with default visibility,
`plan_destroy` on a plan id with no visible Plan row completes without any
error; when additionally no live Resource row references that plan id, the
soft-delete updates affect zero rows and the database is unchanged. -/
theorem plan_destroy_missing_plan (u p : Option String) (pid : String)
    (now : Nat) (db : DB)
    (hplan : ∀ q_ ∈ db.plans, q_.deleted = false → q_.id ≠ pid)
    (hres : ∀ r ∈ db.resources, r.deleted = false → r.plan_id ≠ pid) :
    plan_destroy (some ⟨true, u, p, "no"⟩) pid now db =
      ⟨.ok (), db,
        [[Write.softDeletePlans ⟨some false, none⟩ pid now,
          Write.softDeleteResources ⟨some false, none⟩ pid now]]⟩ := by
  have h1 : db.plans.map (fun q_ =>
      if planMatches ⟨some false, none⟩ q_ && q_.id == pid
      then mark_plan_deleted now q_ else q_) = db.plans := by
    apply map_id_of_mem
    intro a ha
    cases hdel : a.deleted with
    | true => simp [planMatches, matchesDeleted, hdel]
    | false =>
      have hne := hplan a ha hdel
      simp [planMatches, matchesDeleted, hdel, hne]
  have h2 : db.resources.map (fun r =>
      if resourceMatches ⟨some false, none⟩ r && r.plan_id == pid
      then mark_resource_deleted now r else r) = db.resources := by
    apply map_id_of_mem
    intro a ha
    cases hdel : a.deleted with
    | true => simp [resourceMatches, matchesDeleted, hdel]
    | false =>
      have hne := hres a ha hdel
      simp [resourceMatches, matchesDeleted, hdel, hne]
  have e1 : applyWrite db (.softDeletePlans ⟨some false, none⟩ pid now) = db := by
    simp only [applyWrite]
    rw [h1]
  have e2 : applyWrite db (.softDeleteResources ⟨some false, none⟩ pid now) = db := by
    simp only [applyWrite]
    rw [h2]
  show Exec.mk (.ok ())
      (applyWrite (applyWrite db (.softDeletePlans ⟨some false, none⟩ pid now))
        (.softDeleteResources ⟨some false, none⟩ pid now)) _ = _
  rw [e1, e2]
  simp [projectScope]

/-- Witness for C10 (amended): an empty database is untouched. -/
theorem plan_destroy_missing_plan_witness :
    plan_destroy (some ⟨true, none, none, "no"⟩) "p-missing" 3
        ⟨[], [], [], [], [], [], []⟩ =
      ⟨.ok (), ⟨[], [], [], [], [], [], []⟩,
        [[Write.softDeletePlans ⟨some false, none⟩ "p-missing" 3,
          Write.softDeleteResources ⟨some false, none⟩ "p-missing" 3]]⟩ :=
  plan_destroy_missing_plan none none "p-missing" 3 _ (by simp) (by simp)

/-- Claim C10 counterexample: with a soft-deleted Plan (so no visible Plan
row matches the id) and a live Resource row still referencing the plan id,
`plan_destroy` completes without error but changes the database. -/
theorem plan_destroy_dangling_resource_counterexample :
    ([(⟨"p1", "A", "n", "st", true, some 5⟩ : PlanRow)]).filter
        (fun q_ => planMatches ⟨some false, none⟩ q_ && q_.id == "p1") = [] ∧
    (plan_destroy (some ⟨true, none, none, "no"⟩) "p1" 7
        ⟨[⟨"p1", "A", "n", "st", true, some 5⟩],
          [⟨"p1", "r1", "volume", false, none⟩], [], [], [], [], []⟩).out =
      .ok () ∧
    (plan_destroy (some ⟨true, none, none, "no"⟩) "p1" 7
        ⟨[⟨"p1", "A", "n", "st", true, some 5⟩],
          [⟨"p1", "r1", "volume", false, none⟩], [], [], [], [], []⟩).db ≠
      ⟨[⟨"p1", "A", "n", "st", true, some 5⟩],
        [⟨"p1", "r1", "volume", false, none⟩], [], [], [], [], []⟩ :=
  ⟨rfl, rfl, by decide⟩

/-- `model_query` always scopes a successful query by `projectScope`. -/
theorem model_query_ok_projectFilter (c : Context) (kw : Option String)
    (po : Bool) (q : QueryFilter) (h : model_query c kw po = .ok q) :
    q.projectFilter = projectScope c po := by
  by_cases h1 : pyOr kw c.read_deleted == "no" <;>
    by_cases h2 : pyOr kw c.read_deleted == "yes" <;>
      by_cases h3 : pyOr kw c.read_deleted == "only" <;>
        simp [model_query, h1, h2, h3] at h <;> rw [← h]

/-- Claim C3: a Plan query built for a non-admin user context with
`project_only` carries the context's `project_id` filter, so `plan_get`
never returns a Plan of another project; an admin context is never
project-scoped. -/
theorem plan_query_project_scoping :
    (∀ (c : Context) (A plan_id : String) (db : DB) (r : PlanRow),
      is_user_context (some c) = true → c.project_id = some A →
      plan_get (some c) plan_id db = .ok r → r.project_id = A) ∧
    (∀ (c : Context) (kw : Option String) (q : QueryFilter),
      c.is_admin = true → model_query c kw true = .ok q →
      q.projectFilter = none) := by
  constructor
  · intro c A plan_id db r hu hA h
    have hadm : c.is_admin = false := is_user_context_not_admin c hu
    have hrc : require_context_check (some c) = .ok () := by
      simp [require_context_check, is_admin_context, hadm, hu]
    unfold plan_get _plan_get at h
    rw [hrc] at h
    dsimp only at h
    cases hq : model_query c none true with
    | error e => rw [hq] at h; simp at h
    | ok q =>
      rw [hq] at h
      dsimp only at h
      have hqp : q.projectFilter = some A := by
        rw [model_query_ok_projectFilter c none true q hq]
        simp [projectScope, hu, hA]
      cases hh : (db.plans.filter fun p_ => planMatches q p_ && p_.id == plan_id).head? with
      | none => rw [hh] at h; simp at h
      | some p0 =>
        rw [hh] at h
        simp only [Except.ok.injEq] at h
        subst h
        have hp := filter_head?_sat _ _ _ hh
        simp only [planMatches, hqp, Bool.and_eq_true, beq_iff_eq] at hp
        exact hp.1.2
  · intro c kw q hadm h
    rw [model_query_ok_projectFilter c kw true q h]
    simp [projectScope, is_user_context, hadm]

/-- Witness for C3: a user of project A gets a project-A plan back, and an
admin query has no project filter. -/
theorem plan_query_project_scoping_witness :
    plan_get (some ⟨false, some "u1", some "A", "no"⟩) "p1"
        ⟨[⟨"p1", "A", "n", "st", false, none⟩], [], [], [], [], [], []⟩ =
      .ok ⟨"p1", "A", "n", "st", false, none⟩ ∧
    (⟨"p1", "A", "n", "st", false, none⟩ : PlanRow).project_id = "A" ∧
    model_query ⟨true, none, none, "no"⟩ none true = .ok ⟨some false, none⟩ ∧
    (⟨some false, none⟩ : QueryFilter).projectFilter = none := by
  refine ⟨rfl, ?_, rfl, ?_⟩
  · exact (plan_query_project_scoping).1 ⟨false, some "u1", some "A", "no"⟩
      "A" "p1" ⟨[⟨"p1", "A", "n", "st", false, none⟩], [], [], [], [], [], []⟩
      ⟨"p1", "A", "n", "st", false, none⟩ rfl rfl rfl
  · exact (plan_query_project_scoping).2 ⟨true, none, none, "no"⟩ none
      ⟨some false, none⟩ rfl rfl

/-- The Bool filter of the Resource soft-delete statement, read as the
spec's condition: exactly the live rows of the plan are marked. -/
theorem soft_delete_mark_eq (pf : Option String) (pid : String) (now : Nat)
    (a : ResourceRow) :
    (if resourceMatches ⟨some false, pf⟩ a && a.plan_id == pid
      then mark_resource_deleted now a else a) =
    (if a.deleted = false ∧ a.plan_id = pid
      then mark_resource_deleted now a else a) := by
  cases hdel : a.deleted <;> by_cases hpid : a.plan_id = pid <;>
    simp [resourceMatches, matchesDeleted, hdel, hpid]

/-- `_plan_get` finds a freshly appended live row whose id is new, under
default visibility, for an admin or an owner context. -/
theorem _plan_get_fresh (c : Context) (pr : PlanRow) (pl : List PlanRow)
    (db : DB) (hpl : db.plans = pl ++ [pr])
    (hA : require_context_check (some c) = .ok ())
    (hRd : c.read_deleted = "no") (hdel : pr.deleted = false)
    (hproj : c.is_admin = true ∨ c.project_id = some pr.project_id)
    (hFresh : ∀ p_ ∈ pl, p_.id ≠ pr.id) :
    _plan_get (some c) pr.id db = .ok pr := by
  unfold _plan_get
  rw [hA]
  dsimp only
  rw [model_query_default_no c hRd true]
  dsimp only
  rw [hpl, List.filter_append]
  have hnil : pl.filter (fun p_ =>
      planMatches ⟨some false, projectScope c true⟩ p_ && p_.id == pr.id) = [] := by
    apply List.filter_eq_nil_iff.mpr
    intro a ha
    simp only [Bool.and_eq_true, beq_iff_eq, not_and]
    intro _ hid
    exact absurd hid (hFresh a ha)
  have hmatch : planMatches ⟨some false, projectScope c true⟩ pr = true := by
    simp only [planMatches, matchesDeleted, hdel]
    rcases hproj with hadm | hp
    · simp [projectScope, is_user_context, hadm]
    · by_cases hu : is_user_context (some c)
      · simp [projectScope, hu, hp]
      · simp [projectScope, hu]
  have hone : ([pr]).filter (fun p_ =>
      planMatches ⟨some false, projectScope c true⟩ p_ && p_.id == pr.id) = [pr] := by
    simp [hmatch]
  rw [hnil, hone]
  rfl

/-- Claim C7 (amended): `plan_create` converts the supplied resource list
to owned child rows and inserts them with the Plan row in one transaction;
a missing or empty id is replaced by the freshly generated identifier
(distinct generated identifiers hence give distinct Plans) and a supplied
non-empty id is preserved; the new Plan is then re-read and returned —
provided the caller's context can see it (its own project, or admin) and
the id is not already taken. -/
theorem plan_create_semantics (c : Context) (v : PlanCreateValues)
    (newId : String) (db : DB)
    (hA : require_context_check (some c) = .ok ())
    (hRd : c.read_deleted = "no")
    (hProj : c.is_admin = true ∨ c.project_id = some v.project_id)
    (hFresh : ∀ p_ ∈ db.plans, p_.id ≠ plan_create_new_id v newId) :
    plan_create (some c) v newId db =
      { out := .ok (created_plan_row v newId),
        db := { db with
          plans := db.plans ++ [created_plan_row v newId],
          resources := db.resources ++ created_resource_rows v newId },
        txns := [[Write.insertPlan (created_plan_row v newId)
          (created_resource_rows v newId)]] } ∧
    (truthy v.id = false → (created_plan_row v newId).id = newId) ∧
    (∀ s, v.id = some s → s.isEmpty = false →
      (created_plan_row v newId).id = s) ∧
    (created_resource_rows v newId).length =
      (_resource_refs v.resources).length ∧
    (∀ r ∈ created_resource_rows v newId,
      r.deleted = false ∧ r.plan_id = plan_create_new_id v newId) := by
  refine ⟨?_, ?_, ?_, by simp [created_resource_rows], ?_⟩
  · have hget : _plan_get (some c) (plan_create_new_id v newId)
        (applyWrite db (.insertPlan (created_plan_row v newId)
          (created_resource_rows v newId))) = .ok (created_plan_row v newId) := by
      exact _plan_get_fresh c (created_plan_row v newId) db.plans _ rfl hA hRd
        rfl hProj hFresh
    unfold plan_create
    rw [hA]
    dsimp only
    rw [hget]
    rfl
  · intro h
    simp [created_plan_row, plan_create_new_id, h]
  · intro s hs hie
    simp [created_plan_row, plan_create_new_id, truthy, hs, hie]
  · intro r hr
    simp only [created_resource_rows, List.mem_map] at hr
    obtain ⟨a, _, rfl⟩ := hr
    exact ⟨rfl, rfl⟩

/-- Witness for C7 (amended): an admin creates a plan with one resource in
an empty database and gets it back with the generated id. -/
theorem plan_create_semantics_witness :
    plan_create (some ⟨true, none, none, "no"⟩)
        ⟨none, "A", "plan", "started", some [⟨"r1", "server"⟩]⟩ "uuid-1"
        ⟨[], [], [], [], [], [], []⟩ =
      { out := .ok ⟨"uuid-1", "A", "plan", "started", false, none⟩,
        db := ⟨[⟨"uuid-1", "A", "plan", "started", false, none⟩],
          [⟨"uuid-1", "r1", "server", false, none⟩], [], [], [], [], []⟩,
        txns := [[Write.insertPlan ⟨"uuid-1", "A", "plan", "started", false, none⟩
          [⟨"uuid-1", "r1", "server", false, none⟩]]] } :=
  (plan_create_semantics ⟨true, none, none, "no"⟩
      ⟨none, "A", "plan", "started", some [⟨"r1", "server"⟩]⟩ "uuid-1"
      ⟨[], [], [], [], [], [], []⟩ rfl rfl (Or.inl rfl) (by simp)).1

/-- Claim C7 counterexample: a user context of project A creating a Plan
whose `project_id` is B gets `PlanNotFound` from the re-read instead of
the freshly created Plan — which was nevertheless inserted. -/
theorem plan_create_not_returned_counterexample :
    (plan_create (some ⟨false, some "u1", some "A", "no"⟩)
        ⟨none, "B", "plan", "started", some [⟨"r1", "server"⟩]⟩ "uuid-1"
        ⟨[], [], [], [], [], [], []⟩).out = .error (.planNotFound "uuid-1") ∧
    (plan_create (some ⟨false, some "u1", some "A", "no"⟩)
        ⟨none, "B", "plan", "started", some [⟨"r1", "server"⟩]⟩ "uuid-1"
        ⟨[], [], [], [], [], [], []⟩).db.plans =
      [⟨"uuid-1", "B", "plan", "started", false, none⟩] :=
  ⟨rfl, rfl⟩

/-- Claim C1 (amended): `plan_update` with a `resources` list, under
default visibility, leaves every old Resource row of the Plan present and
soft-deleted, inserts exactly one fresh live row per supplied resource
(all with the Plan's id), and applies the other Plan field updates — but
the soft-delete shares a transaction only with the Plan field update,
while every new Resource row is inserted in its own separate transaction
committed beforehand. -/
theorem plan_update_resources_replacement (c : Context) (plan_id : String)
    (nm st : Option String) (rs : List ResourceSpec) (now : Nat) (db : DB)
    (p0 : PlanRow)
    (hA : require_context_check (some c) = .ok ())
    (hRd : c.read_deleted = "no")
    (hVis : _plan_get (some c) plan_id db = .ok p0) :
    plan_update (some c) plan_id ⟨nm, st, some rs⟩ now db =
      { out := .ok (apply_plan_fields ⟨nm, st⟩ p0),
        db := { db with
          plans := db.plans.map (fun p_ =>
            if p_.id == plan_id then apply_plan_fields ⟨nm, st⟩ p_ else p_),
          resources := db.resources.map (fun r =>
            if r.deleted = false ∧ r.plan_id = plan_id
            then mark_resource_deleted now r else r) ++
            new_resource_rows plan_id rs },
        txns := (new_resource_rows plan_id rs).map
            (fun r => [Write.insertResource r]) ++
          [[Write.softDeleteResources ⟨some false, none⟩ plan_id now,
            Write.updatePlanFields plan_id ⟨nm, st⟩]] } := by
  have hdb2 : insert_resources
      (applyWrite db (.softDeleteResources ⟨some false, projectScope c false⟩
        plan_id now)) (new_resource_rows plan_id rs) =
      { db with resources := db.resources.map (fun r =>
          if r.deleted = false ∧ r.plan_id = plan_id
          then mark_resource_deleted now r else r) ++
          new_resource_rows plan_id rs } := by
    rw [insert_resources_spec]
    simp only [applyWrite]
    rw [List.map_congr_left (fun a _ =>
      soft_delete_mark_eq (projectScope c false) plan_id now a)]
  have hget2 : _plan_get (some c) plan_id
      (insert_resources (applyWrite db
        (.softDeleteResources ⟨some false, projectScope c false⟩ plan_id now))
        (new_resource_rows plan_id rs)) = .ok p0 := by
    rw [_plan_get_plans_only (some c) plan_id _ db (by rw [hdb2])]
    exact hVis
  unfold plan_update
  rw [hA]
  dsimp only
  rw [hVis]
  dsimp only
  rw [model_query_default_no c hRd false]
  dsimp only
  rw [hget2, hdb2]
  dsimp only
  rfl

/-- Witness for C1 (amended): a concrete `plan_update` with one old and
one new resource. -/
theorem plan_update_resources_replacement_witness :
    plan_update (some ⟨true, none, none, "no"⟩) "p1"
        ⟨some "newname", none, some [⟨"r1", "server"⟩]⟩ 9
        ⟨[⟨"p1", "A", "old", "started", false, none⟩],
          [⟨"p1", "r0", "volume", false, none⟩], [], [], [], [], []⟩ =
      { out := .ok ⟨"p1", "A", "newname", "started", false, none⟩,
        db := ⟨[⟨"p1", "A", "newname", "started", false, none⟩],
          [⟨"p1", "r0", "volume", true, some 9⟩,
            ⟨"p1", "r1", "server", false, none⟩], [], [], [], [], []⟩,
        txns := [[Write.insertResource ⟨"p1", "r1", "server", false, none⟩],
          [Write.softDeleteResources ⟨some false, none⟩ "p1" 9,
            Write.updatePlanFields "p1" ⟨some "newname", none⟩]] } :=
  plan_update_resources_replacement ⟨true, none, none, "no"⟩ "p1"
    (some "newname") none [⟨"r1", "server"⟩] 9
    ⟨[⟨"p1", "A", "old", "started", false, none⟩],
      [⟨"p1", "r0", "volume", false, none⟩], [], [], [], [], []⟩
    ⟨"p1", "A", "old", "started", false, none⟩ rfl rfl rfl

/-- Claim C1 counterexample: in a successful `plan_update` carrying both a
`resources` list and a `name` update, the new Resource row is inserted in
a transaction of its own — no transaction contains both the insert and the
Plan field update, refuting the claimed atomicity. -/
theorem plan_update_not_atomic_counterexample :
    (plan_update (some ⟨true, none, none, "no"⟩) "p1"
        ⟨some "newname", none, some [⟨"r1", "server"⟩]⟩ 9
        ⟨[⟨"p1", "A", "old", "started", false, none⟩],
          [⟨"p1", "r0", "volume", false, none⟩], [], [], [], [], []⟩).out =
      .ok ⟨"p1", "A", "newname", "started", false, none⟩ ∧
    ((plan_update (some ⟨true, none, none, "no"⟩) "p1"
        ⟨some "newname", none, some [⟨"r1", "server"⟩]⟩ 9
        ⟨[⟨"p1", "A", "old", "started", false, none⟩],
          [⟨"p1", "r0", "volume", false, none⟩], [], [], [], [], []⟩).txns.any
      (fun t => t.contains
        (Write.insertResource ⟨"p1", "r1", "server", false, none⟩))) = true ∧
    ((plan_update (some ⟨true, none, none, "no"⟩) "p1"
        ⟨some "newname", none, some [⟨"r1", "server"⟩]⟩ 9
        ⟨[⟨"p1", "A", "old", "started", false, none⟩],
          [⟨"p1", "r0", "volume", false, none⟩], [], [], [], [], []⟩).txns.any
      (fun t => t.contains
        (Write.updatePlanFields "p1" ⟨some "newname", none⟩))) = true ∧
    ((plan_update (some ⟨true, none, none, "no"⟩) "p1"
        ⟨some "newname", none, some [⟨"r1", "server"⟩]⟩ 9
        ⟨[⟨"p1", "A", "old", "started", false, none⟩],
          [⟨"p1", "r0", "volume", false, none⟩], [], [], [], [], []⟩).txns.all
      (fun t => !(t.contains
          (Write.insertResource ⟨"p1", "r1", "server", false, none⟩) &&
        t.contains
          (Write.updatePlanFields "p1" ⟨some "newname", none⟩)))) = true :=
  ⟨rfl, rfl, rfl, rfl⟩

end Smaug
